import Mathlib

/-!
Shallow embedding of the poker hand evaluator / recommendation CLI
(`streamlit_app.py`) and proofs about its specification claims.

Python floats are modelled by rationals (ℚ); Python strings by Lean
strings.  The external hand-ranking library (treys) is not part of the
repository; where a claim depends on it, a definition modelled from the
spec's provider contract is used and marked as such.
-/

/-! ## Data model -/

inductive Street where
  | preflop
  | flop
  | turn
  | river
deriving DecidableEq, Repr

structure HandEvaluation where
  street : Street
  hand_class : String
  score : Int
  pct_rank : ℚ
  description : String

structure Recommendation where
  label : String
  action : String
  explanation : String

/-- Modelled from the spec: the card value of the external provider
(treys `Card.new`); rank 2..14 and a suit character, read off a
canonical two character token. -/
structure CardM where
  rank : Nat
  suit : Char
deriving DecidableEq, Repr

def POSITION_ORDER : List String :=
  ["UTG", "UTG1", "UTG2", "MP", "CO", "BTN", "SB", "BB"]

/-! ## String helpers (embedding of the Python `str` operations used) -/

def lowerString (s : String) : String := String.mk (s.data.map Char.toLower)

def upperString (s : String) : String := String.mk (s.data.map Char.toUpper)

/-- Python `str.capitalize`: first character upper-cased, rest lower-cased. -/
def strCapitalize (s : String) : String :=
  match s.data with
  | [] => ""
  | c :: cs => String.mk (Char.toUpper c :: cs.map Char.toLower)

/-- Python `str.strip` on a character list. -/
def trimChars (s : List Char) : List Char :=
  ((s.dropWhile Char.isWhitespace).reverse.dropWhile Char.isWhitespace).reverse

/-- Python `str.replace` (leftmost, non-overlapping, no rescanning of the
replacement) on character lists, with a fuel argument to keep the
recursion structural; fuel is always instantiated with the length of the
scanned list, which suffices because every step consumes at least one
character of it. -/
def replaceFuel (pat rep : List Char) : Nat → List Char → List Char
  | _, [] => []
  | 0, l => l
  | fuel + 1, c :: cs =>
    if pat.isPrefixOf (c :: cs) && !pat.isEmpty then
      rep ++ replaceFuel pat rep fuel ((c :: cs).drop pat.length)
    else
      c :: replaceFuel pat rep fuel cs

def replaceAll (s pat rep : List Char) : List Char :=
  replaceFuel pat rep s.length s

/-- Substring test, Python `k in name`. -/
def hasSublist (pat : List Char) : List Char → Bool
  | [] => pat.isEmpty
  | c :: cs => pat.isPrefixOf (c :: cs) || hasSublist pat cs

def containsSub (hay pat : String) : Bool := hasSublist pat.data hay.data

def streetStr : Street → String
  | Street.preflop => "preflop"
  | Street.flop => "flop"
  | Street.turn => "turn"
  | Street.river => "river"

/-! ## Card parser (`normalize_card_str`, `parse_cards`) -/

/-- The sequential German-word replacements of `normalize_card_str`
(dict iteration order: ass, herz, kreuz, karo, pik). -/
def germanRepl (s : List Char) : List Char :=
  replaceAll (replaceAll (replaceAll (replaceAll (replaceAll s
    "ass".data "a".data) "herz".data "h".data) "kreuz".data "c".data)
    "karo".data "d".data) "pik".data "s".data

/-- The `rank_map` dict restricted to single characters (the two
character key "10" is unreachable through single-character lookups). -/
def rank_map : Char → Option Char
  | '2' => some '2'
  | '3' => some '3'
  | '4' => some '4'
  | '5' => some '5'
  | '6' => some '6'
  | '7' => some '7'
  | '8' => some '8'
  | '9' => some '9'
  | 't' => some 'T'
  | 'j' => some 'J'
  | 'q' => some 'Q'
  | 'k' => some 'K'
  | 'a' => some 'A'
  | _ => none

def suit_map : Char → Option Char
  | 'c' => some 'c'
  | 'd' => some 'd'
  | 'h' => some 'h'
  | 's' => some 's'
  | _ => none

/-- The branch structure of `normalize_card_str` after the textual
normalization: a two character token, a "10X" token, otherwise an
error. -/
def normalize_core (s : List Char) (orig : String) : Except String String :=
  match s with
  | [c0, c1] =>
    match rank_map c0, suit_map c1 with
    | some r, some u => Except.ok (String.mk [r, u])
    | _, _ => Except.error ("Ungültige Karte: " ++ orig)
  | ['1', '0', c2] =>
    match suit_map c2 with
    | some u => Except.ok (String.mk ['T', u])
    | none => Except.error ("Ungültige Karte: " ++ orig)
  | _ => Except.error ("Ungültige Karte: " ++ orig)

def normalize_card_str (card_str : String) : Except String String :=
  normalize_core (germanRepl ((trimChars card_str.data).map Char.toLower)) card_str

def rankVal : Char → Nat
  | '2' => 2
  | '3' => 3
  | '4' => 4
  | '5' => 5
  | '6' => 6
  | '7' => 7
  | '8' => 8
  | '9' => 9
  | 'T' => 10
  | 'J' => 11
  | 'Q' => 12
  | 'K' => 13
  | 'A' => 14
  | _ => 0

/-- Modelled from the spec: the external provider's `Card.new` on a
canonical token (it always succeeds on canonical rank+suit tokens). -/
def Card_new (s : String) : CardM :=
  match s.data with
  | [r, u] => { rank := rankVal r, suit := u }
  | _ => { rank := 0, suit := 'x' }

/-- `parse_cards`: normalize each token left to right, the first invalid
token's error propagates. -/
def parse_cards : List String → Except String (List CardM)
  | [] => Except.ok []
  | c :: cs =>
    match normalize_card_str c with
    | Except.error e => Except.error e
    | Except.ok s =>
      match parse_cards cs with
      | Except.error e => Except.error e
      | Except.ok rest => Except.ok (Card_new s :: rest)

def exceptOk {ε α : Type} : Except ε α → Bool
  | Except.ok _ => true
  | Except.error _ => false

deriving instance DecidableEq for Except

/-! ## Street detector -/

def detect_street (board_cards : Nat) : Except String Street :=
  if board_cards = 0 then Except.ok Street.preflop
  else if board_cards = 3 then Except.ok Street.flop
  else if board_cards = 4 then Except.ok Street.turn
  else if board_cards = 5 then Except.ok Street.river
  else Except.error "Board muss 0, 3, 4 oder 5 Karten enthalten (Preflop/Flop/Turn/River)."

/-! ## Position factor -/

def position_factor (position : String) : ℚ :=
  let pos := upperString position
  if POSITION_ORDER.contains pos then
    let idx := POSITION_ORDER.indexOf pos
    let base : ℚ := 9 / 10 + 3 / 100 * (idx : ℚ)
    if pos == "SB" || pos == "BB" then base - 5 / 100 else base
  else 1

/-! ## Strength classifier -/

def checkAny (name : String) (keys : List String) : Bool :=
  keys.any (fun k => containsSub name k)

def classify_strength (hand_eval : HandEvaluation) : String :=
  let name := lowerString hand_eval.hand_class
  let pct := hand_eval.pct_rank
  if checkAny name ["straight flush", "four of a kind", "full house"] then "premium"
  else if checkAny name ["flush", "straight", "three of a kind"] then "stark"
  else if checkAny name ["two pair", "pair"] then "mittel"
  else if pct > 7 / 10 then "schwach"
  else "mittel"

/-! ## Recommendation engine -/

def recommend_action (hand_eval : HandEvaluation) (position : String)
    ( stack_bb pot_bb : ℚ) (players : Int) : Recommendation :=
  let pos_factor := position_factor position
  let strength := classify_strength hand_eval
  let multiway : ℚ := 1 + ((max (players - 2) 0 : ℤ) : ℚ) * (3 / 100)
  let required : ℚ := 35 / 100 * multiway / pos_factor
  let equity : ℚ := 1 - hand_eval.pct_rank
  match hand_eval.street with
  | Street.preflop =>
    if strength = "premium" then
      { label := "PREMIUM PRE-FLOP"
        action := "3-bet / 4-bet for Value; niemals folden."
        explanation := "Sehr starke Starthand. Aggressiv für Value spielen, besonders in später Position." }
    else if strength = "stark" then
      { label := "Starke Hand Pre-Flop"
        action := "Open-Raise oder Call vs. 3-bet; selten folden."
        explanation := "Gute Starthand. In früher Position tighter, in später Position aggressiver." }
    else if strength = "mittel" then
      { label := "Grenzhand Pre-Flop"
        action := "Open-Raise in später Position oder Fold in früher Position."
        explanation := "Spielbar, aber positionabhängig. Gegen viel Action eher folden." }
    else
      { label := "Trash Hand Pre-Flop"
        action := "Fold."
        explanation := "Schwache Starthand ohne klare Zukunft. Meistens einfach wegwerfen." }
  | st =>
    let ec : String × String :=
      if equity > required + 15 / 100 then ("große Edge", "sehr stark")
      else if equity > required + 5 / 100 then ("leichte Edge", "stark")
      else if equity > required - 5 / 100 then ("knapp", "grenzwertig")
      else ("nachteil", "schwach")
    let cap := strCapitalize (streetStr st)
    if strength = "premium" then
      { label := cap ++ " – Monsterhand"
        action := "Großer Valuebet / Raise (mindestens 2/3 Pot). Niemals folden."
        explanation := "Deine Hand ist " ++ ec.2 ++ " (z.B. " ++ hand_eval.hand_class ++ "). " ++ "Du hast eine " ++ ec.1 ++ " gegenüber typischen Ranges. " ++ "Baue den Pot auf und schütze deine Hand gegen Draws." }
    else if strength = "stark" then
      { label := cap ++ " – starke Made Hand / guter Draw"
        action := "Bet 1/2–2/3 Pot oder Call gegen moderate Bets."
        explanation := "Deine Hand ist " ++ ec.2 ++ " (z.B. " ++ hand_eval.hand_class ++ "). " ++ "Oft bist du vorne, aber große Pots gegen viel Action können gefährlich werden." }
    else if strength = "mittel" then
      { label := cap ++ " – mittlere Hand / schwacher Showdown-Wert"
        action := if equity ≥ required then "Check/Call kleine Bets oder Thin Valuebet in Position." else "Check/Fold gegen größere Bets."
        explanation := if equity ≥ required then "Grenzhand: Du hast gerade genug Equity, um weiterzuspielen, aber du solltest den Pot klein halten." else "Gegen typische Ranges und Betgrößen ist deine Hand häufig hinten. Nur gegen sehr kleine Bets weiter mitgehen." }
    else
      { label := cap ++ " – schwache Hand / Luft"
        action := "Check/Fold, außer du hast einen klaren Bluff-Spot."
        explanation := "Deine Hand hat kaum Showdown-Wert und wenig Equity. Nur als Bluff in sehr guten Spots spielbar." }

/-! ## Spec-side definitions

The next definitions follow the words of the specification; they are
compared against the embedded source code in the claim theorems. -/

/-- Spec formula: `multiway_factor = 1 + max(players-2, 0) * 0.03`. -/
def multiway_factor (players : Int) : ℚ :=
  1 + ((max (players - 2) 0 : ℤ) : ℚ) * (3 / 100)

/-- Spec formula: `required_equity = 0.35 * multiway_factor / position_factor`. -/
def required_equity (position : String) (players : Int) : ℚ :=
  35 / 100 * multiway_factor players / position_factor position

/-- Spec formula: `equity_estimate = 1 - percentile`. -/
def equity_est (pct_rank : ℚ) : ℚ := 1 - pct_rank

/-- Spec-side reconstruction of the postflop part of the recommendation
engine, as a function of the strength tier, the street, the hand class
label and the two equity quantities of the spec's formulas. -/
def postflopFromBands (strength : String) (st : Street) (hand_class : String)
    (equity required : ℚ) : Recommendation :=
  let ec : String × String :=
    if equity > required + 15 / 100 then ("große Edge", "sehr stark")
    else if equity > required + 5 / 100 then ("leichte Edge", "stark")
    else if equity > required - 5 / 100 then ("knapp", "grenzwertig")
    else ("nachteil", "schwach")
  let cap := strCapitalize (streetStr st)
  if strength = "premium" then
    { label := cap ++ " – Monsterhand"
      action := "Großer Valuebet / Raise (mindestens 2/3 Pot). Niemals folden."
      explanation := "Deine Hand ist " ++ ec.2 ++ " (z.B. " ++ hand_class ++ "). " ++ "Du hast eine " ++ ec.1 ++ " gegenüber typischen Ranges. " ++ "Baue den Pot auf und schütze deine Hand gegen Draws." }
  else if strength = "stark" then
    { label := cap ++ " – starke Made Hand / guter Draw"
      action := "Bet 1/2–2/3 Pot oder Call gegen moderate Bets."
      explanation := "Deine Hand ist " ++ ec.2 ++ " (z.B. " ++ hand_class ++ "). " ++ "Oft bist du vorne, aber große Pots gegen viel Action können gefährlich werden." }
  else if strength = "mittel" then
    { label := cap ++ " – mittlere Hand / schwacher Showdown-Wert"
      action := if equity ≥ required then "Check/Call kleine Bets oder Thin Valuebet in Position." else "Check/Fold gegen größere Bets."
      explanation := if equity ≥ required then "Grenzhand: Du hast gerade genug Equity, um weiterzuspielen, aber du solltest den Pot klein halten." else "Gegen typische Ranges und Betgrößen ist deine Hand häufig hinten. Nur gegen sehr kleine Bets weiter mitgehen." }
  else
    { label := cap ++ " – schwache Hand / Luft"
      action := "Check/Fold, außer du hast einen klaren Bluff-Spot."
      explanation := "Deine Hand hat kaum Showdown-Wert und wenig Equity. Nur als Bluff in sehr guten Spots spielbar." }

/-- The four strength tiers as the spec names them. -/
inductive Tier where
  | premium
  | strong
  | medium
  | weak
deriving DecidableEq, Repr

/-- Spec-side classifier, following the claim's words: the four rules in
priority order, the first matching rule wins.  "Contains" is
case-insensitive, as the provider's labels are capitalized (e.g.
"Full House") and the spec's own examples rely on them matching. -/
def spec_classify (label : String) (pct : ℚ) : Tier :=
  let name := lowerString label
  if containsSub name "straight flush" || containsSub name "four of a kind" || containsSub name "full house" then Tier.premium
  else if containsSub name "flush" || containsSub name "straight" || containsSub name "three of a kind" then Tier.strong
  else if containsSub name "two pair" || containsSub name "pair" then Tier.medium
  else if pct > 7 / 10 then Tier.weak
  else Tier.medium

/-- The strings the source code uses for each tier. -/
def tierName : Tier → String
  | Tier.premium => "premium"
  | Tier.strong => "stark"
  | Tier.medium => "mittel"
  | Tier.weak => "schwach"

/-! ## Modelled hand ranking provider (category labelling)

The hand ranking itself is delegated to the external treys library and
is not part of this repository; the spec (§4.3 and the glossary)
specifies its contract.  The following definitions are modelled from
the spec: the category label of a five card hand. -/

def dedupL {α : Type} [DecidableEq α] : List α → List α
  | [] => []
  | a :: l =>
    let t := dedupL l
    if a ∈ t then t else a :: t

def maxNat (l : List Nat) : Nat := l.foldr Nat.max 0

def minNat : List Nat → Nat
  | [] => 0
  | a :: t => t.foldr Nat.min a

def isStraightRanks (rs : List Nat) : Bool :=
  let d := dedupL rs
  d.length == 5 &&
    (maxNat d - minNat d == 4 || ([14, 2, 3, 4, 5].all fun r => d.contains r))

/-- Modelled from the spec: the external Hand Ranking Provider's
category label of a five card hand (spec §4.3; labels as in §4.4 and
the examples). -/
def hand_category (cs : List CardM) : String :=
  let rs := cs.map (fun c => c.rank)
  let d := dedupL rs
  let counts := d.map (fun r => rs.count r)
  let flushB := (dedupL (cs.map fun c => c.suit)).length == 1
  let straightB := isStraightRanks rs
  if straightB && flushB then "Straight Flush"
  else if counts.contains 4 then "Four of a Kind"
  else if counts.contains 3 && counts.contains 2 then "Full House"
  else if flushB then "Flush"
  else if straightB then "Straight"
  else if counts.contains 3 then "Three of a Kind"
  else if (counts.filter fun c => c == 2).length == 2 then "Two Pair"
  else if counts.contains 2 then "Pair"
  else "High Card"

/-- The 52 canonical card tokens (range of the normalizer). -/
def rankChars : List Char :=
  ['2', '3', '4', '5', '6', '7', '8', '9', 'T', 'J', 'Q', 'K', 'A']

def suitChars : List Char := ['c', 'd', 'h', 's']

def canonicalCards : List String :=
  rankChars.flatMap (fun r => suitChars.map (fun u => String.mk [r, u]))

/-! ## Theorems -/

/-- Claim C4: street detection succeeds exactly on board counts 0, 3,
4, 5 (preflop, flop, turn, river respectively) and errors on every
other count. -/
theorem claim_C4 :
    detect_street 0 = Except.ok Street.preflop
    ∧ detect_street 3 = Except.ok Street.flop
    ∧ detect_street 4 = Except.ok Street.turn
    ∧ detect_street 5 = Except.ok Street.river
    ∧ ∀ n : Nat, n ≠ 0 → n ≠ 3 → n ≠ 4 → n ≠ 5 →
        detect_street n = Except.error "Board muss 0, 3, 4 oder 5 Karten enthalten (Preflop/Flop/Turn/River)." := by
  refine ⟨rfl, rfl, rfl, rfl, ?_⟩
  intro n h0 h3 h4 h5
  simp [detect_street, h0, h3, h4, h5]

/-- Witness for claim C4 at board count 2. -/
theorem claim_C4_w :
    detect_street 2 = Except.error "Board muss 0, 3, 4 oder 5 Karten enthalten (Preflop/Flop/Turn/River)." :=
  claim_C4.2.2.2.2 2 (by decide) (by decide) (by decide) (by decide)

/-- Claim C5: the stack and pot arguments do not influence the
recommendation at all: for any two stacks and any two pots, the
recommendation is identical. -/
theorem claim_C5 (he : HandEvaluation) (position : String)
    (s1 p1 s2 p2 : ℚ) (players : Int) :
    recommend_action he position s1 p1 players =
      recommend_action he position s2 p2 players := rfl

/-- Claim C1: every postflop recommendation is computed from exactly the
spec formulas `multiway_factor = 1 + max(players-2, 0) * 0.03`,
`required_equity = 0.35 * multiway_factor / position_factor` and
`equity_estimate = 1 - percentile`, for all integer player counts and
all position strings: the engine's postflop output coincides with the
spec-side reconstruction applied to these quantities. -/
theorem claim_C1 (he : HandEvaluation) (position : String)
    ( stack_bb pot_bb : ℚ) (players : Int) (h : he.street ≠ Street.preflop) :
    recommend_action he position stack_bb pot_bb players =
      postflopFromBands (classify_strength he) he.street he.hand_class
        (equity_est he.pct_rank) (required_equity position players) := by
  obtain ⟨st, hc, sc, pct, d⟩ := he
  cases st
  · exact absurd rfl h
  all_goals rfl

/-- Witness for claim C1 on the flop. -/
theorem claim_C1_w :
    recommend_action ⟨Street.flop, "High Card", 7000, 95 / 100, "High Card"⟩ "BTN" 100 10 6 =
      postflopFromBands (classify_strength ⟨Street.flop, "High Card", 7000, 95 / 100, "High Card"⟩)
        Street.flop "High Card" (equity_est (95 / 100)) (required_equity "BTN" 6) :=
  claim_C1 ⟨Street.flop, "High Card", 7000, 95 / 100, "High Card"⟩ "BTN" 100 10 6 (by decide)

/-- Claim C8: the classifier returns one of exactly the four strings
"premium", "stark", "mittel", "schwach" (German tier names). -/
theorem claim_C8 (he : HandEvaluation) :
    classify_strength he = "premium" ∨ classify_strength he = "stark"
    ∨ classify_strength he = "mittel" ∨ classify_strength he = "schwach" := by
  simp only [classify_strength]
  split_ifs <;> simp

/-- Claim C6: for hole cards 4s 6s and board 6s 6c 4d the parsed cards
are accepted, the street is the flop, the provider's category (modelled
from the spec) is "Full House", the tier is premium, and the
recommended action is the big value bet/raise, never fold, for every
position, stack, pot and player count. -/
theorem claim_C6 (position : String) ( stack_bb pot_bb : ℚ) (players : Int)
    (score : Int) (pct : ℚ) (d : String) :
    parse_cards ["6s", "6c", "4d"] = Except.ok [⟨6, 's'⟩, ⟨6, 'c'⟩, ⟨4, 'd'⟩]
    ∧ parse_cards ["4s", "6s"] = Except.ok [⟨4, 's'⟩, ⟨6, 's'⟩]
    ∧ hand_category [⟨6, 's'⟩, ⟨6, 'c'⟩, ⟨4, 'd'⟩, ⟨4, 's'⟩, ⟨6, 's'⟩] = "Full House"
    ∧ detect_street 3 = Except.ok Street.flop
    ∧ classify_strength ⟨Street.flop, "Full House", score, pct, d⟩ = "premium"
    ∧ (recommend_action ⟨Street.flop, "Full House", score, pct, d⟩ position stack_bb pot_bb players).action =
        "Großer Valuebet / Raise (mindestens 2/3 Pot). Niemals folden." :=
  ⟨rfl, rfl, rfl, rfl, rfl, rfl⟩

/-- Value of the position factor at UTG. -/
theorem pf_UTG : position_factor "UTG" = 9 / 10 := by
  simp only [position_factor, show upperString "UTG" = "UTG" from rfl,
    show POSITION_ORDER.contains "UTG" = true from rfl,
    show (("UTG" == "SB") || ("UTG" == "BB")) = false from rfl,
    if_true, Bool.false_eq_true, if_false,
    show List.indexOf "UTG" POSITION_ORDER = 0 from rfl]
  norm_num

/-- Value of the position factor at UTG1. -/
theorem pf_UTG1 : position_factor "UTG1" = 93 / 100 := by
  simp only [position_factor, show upperString "UTG1" = "UTG1" from rfl,
    show POSITION_ORDER.contains "UTG1" = true from rfl,
    show (("UTG1" == "SB") || ("UTG1" == "BB")) = false from rfl,
    if_true, Bool.false_eq_true, if_false,
    show List.indexOf "UTG1" POSITION_ORDER = 1 from rfl]
  norm_num

/-- Value of the position factor at UTG2. -/
theorem pf_UTG2 : position_factor "UTG2" = 96 / 100 := by
  simp only [position_factor, show upperString "UTG2" = "UTG2" from rfl,
    show POSITION_ORDER.contains "UTG2" = true from rfl,
    show (("UTG2" == "SB") || ("UTG2" == "BB")) = false from rfl,
    if_true, Bool.false_eq_true, if_false,
    show List.indexOf "UTG2" POSITION_ORDER = 2 from rfl]
  norm_num

/-- Value of the position factor at MP. -/
theorem pf_MP : position_factor "MP" = 99 / 100 := by
  simp only [position_factor, show upperString "MP" = "MP" from rfl,
    show POSITION_ORDER.contains "MP" = true from rfl,
    show (("MP" == "SB") || ("MP" == "BB")) = false from rfl,
    if_true, Bool.false_eq_true, if_false,
    show List.indexOf "MP" POSITION_ORDER = 3 from rfl]
  norm_num

/-- Value of the position factor at CO. -/
theorem pf_CO : position_factor "CO" = 102 / 100 := by
  simp only [position_factor, show upperString "CO" = "CO" from rfl,
    show POSITION_ORDER.contains "CO" = true from rfl,
    show (("CO" == "SB") || ("CO" == "BB")) = false from rfl,
    if_true, Bool.false_eq_true, if_false,
    show List.indexOf "CO" POSITION_ORDER = 4 from rfl]
  norm_num

/-- Value of the position factor at BTN. -/
theorem pf_BTN : position_factor "BTN" = 105 / 100 := by
  simp only [position_factor, show upperString "BTN" = "BTN" from rfl,
    show POSITION_ORDER.contains "BTN" = true from rfl,
    show (("BTN" == "SB") || ("BTN" == "BB")) = false from rfl,
    if_true, Bool.false_eq_true, if_false,
    show List.indexOf "BTN" POSITION_ORDER = 5 from rfl]
  norm_num

/-- Value of the position factor at SB. -/
theorem pf_SB : position_factor "SB" = 103 / 100 := by
  simp only [position_factor, show upperString "SB" = "SB" from rfl,
    show POSITION_ORDER.contains "SB" = true from rfl,
    show (("SB" == "SB") || ("SB" == "BB")) = true from rfl,
    if_true,
    show List.indexOf "SB" POSITION_ORDER = 6 from rfl]
  norm_num

/-- Value of the position factor at BB. -/
theorem pf_BB : position_factor "BB" = 106 / 100 := by
  simp only [position_factor, show upperString "BB" = "BB" from rfl,
    show POSITION_ORDER.contains "BB" = true from rfl,
    show (("BB" == "SB") || ("BB" == "BB")) = true from rfl,
    if_true,
    show List.indexOf "BB" POSITION_ORDER = 7 from rfl]
  norm_num

/-- Claim C3: the position factor lies in the narrow band around
[0.85, 1.05] (exactly [0.9, 1.06]), increases along the seating order
toward the button, is reduced by 0.05 for the blinds SB and BB, and is
exactly 1 for any string not in the seating order. -/
theorem claim_C3 (s : String) :
    (upperString s ∉ POSITION_ORDER → position_factor s = 1)
    ∧ (9 / 10 ≤ position_factor s ∧ position_factor s ≤ 106 / 100)
    ∧ (position_factor "UTG" < position_factor "UTG1"
        ∧ position_factor "UTG1" < position_factor "UTG2"
        ∧ position_factor "UTG2" < position_factor "MP"
        ∧ position_factor "MP" < position_factor "CO"
        ∧ position_factor "CO" < position_factor "BTN")
    ∧ position_factor "SB" = (9 / 10 + 3 / 100 * 6) - 5 / 100
    ∧ position_factor "BB" = (9 / 10 + 3 / 100 * 7) - 5 / 100 := by
  have hb : 9 / 10 ≤ position_factor s ∧ position_factor s ≤ 106 / 100 := by
    by_cases hm : upperString s ∈ POSITION_ORDER
    · simp only [POSITION_ORDER, List.mem_cons, List.not_mem_nil, or_false] at hm
      rcases hm with h | h | h | h | h | h | h | h
      · rw [show position_factor s = position_factor "UTG" by unfold position_factor; rw [h, show upperString "UTG" = "UTG" from rfl], pf_UTG]
        norm_num
      · rw [show position_factor s = position_factor "UTG1" by unfold position_factor; rw [h, show upperString "UTG1" = "UTG1" from rfl], pf_UTG1]
        norm_num
      · rw [show position_factor s = position_factor "UTG2" by unfold position_factor; rw [h, show upperString "UTG2" = "UTG2" from rfl], pf_UTG2]
        norm_num
      · rw [show position_factor s = position_factor "MP" by unfold position_factor; rw [h, show upperString "MP" = "MP" from rfl], pf_MP]
        norm_num
      · rw [show position_factor s = position_factor "CO" by unfold position_factor; rw [h, show upperString "CO" = "CO" from rfl], pf_CO]
        norm_num
      · rw [show position_factor s = position_factor "BTN" by unfold position_factor; rw [h, show upperString "BTN" = "BTN" from rfl], pf_BTN]
        norm_num
      · rw [show position_factor s = position_factor "SB" by unfold position_factor; rw [h, show upperString "SB" = "SB" from rfl], pf_SB]
        norm_num
      · rw [show position_factor s = position_factor "BB" by unfold position_factor; rw [h, show upperString "BB" = "BB" from rfl], pf_BB]
        norm_num
    · have hc : POSITION_ORDER.contains (upperString s) = false := by
        simp only [List.contains, Bool.eq_false_iff, ne_eq, List.elem_iff]
        exact hm
      simp only [position_factor, hc, Bool.false_eq_true, if_false]
      norm_num
  refine ⟨?_, hb, ⟨?_, ?_, ?_, ?_, ?_⟩, ?_, ?_⟩
  · intro hnm
    have hc : POSITION_ORDER.contains (upperString s) = false := by
      simp only [List.contains, Bool.eq_false_iff, ne_eq, List.elem_iff]
      exact hnm
    simp only [position_factor, hc, Bool.false_eq_true, if_false]
  · rw [pf_UTG, pf_UTG1]; norm_num
  · rw [pf_UTG1, pf_UTG2]; norm_num
  · rw [pf_UTG2, pf_MP]; norm_num
  · rw [pf_MP, pf_CO]; norm_num
  · rw [pf_CO, pf_BTN]; norm_num
  · rw [pf_SB]; norm_num
  · rw [pf_BB]; norm_num

/-- Witness for claim C3 at the unknown position string "XYZ". -/
theorem claim_C3_w : position_factor "XYZ" = 1 :=
  (claim_C3 "XYZ").1 (by decide)

/-- Every rank character produced by the rank map is canonical. -/
theorem rank_map_mem (x r : Char) (h : rank_map x = some r) : r ∈ rankChars := by
  unfold rank_map at h
  split at h <;> first
    | (injection h with h2; rw [← h2]; decide)
    | cases h

/-- Every suit character produced by the suit map is canonical. -/
theorem suit_map_mem (x u : Char) (h : suit_map x = some u) : u ∈ suitChars := by
  unfold suit_map at h
  split at h <;> first
    | (injection h with h2; rw [← h2]; decide)
    | cases h

/-- The normalizer only ever returns one of the 52 canonical tokens. -/
theorem normalize_core_range (s : List Char) (orig c : String)
    (h : normalize_core s orig = Except.ok c) : c ∈ canonicalCards := by
  unfold normalize_core at h
  split at h
  · rename_i c0 c1
    cases hr : rank_map c0 with
    | none => rw [hr] at h; cases hu : suit_map c1 <;> rw [hu] at h <;> cases h
    | some r =>
      cases hu : suit_map c1 with
      | none => rw [hr, hu] at h; cases h
      | some u =>
        rw [hr, hu] at h
        cases h
        simp only [canonicalCards, List.mem_flatMap, List.mem_map]
        exact ⟨r, rank_map_mem c0 r hr, u, suit_map_mem c1 u hu, rfl⟩
  · rename_i c2
    cases hu : suit_map c2 with
    | none => rw [hu] at h; cases h
    | some u =>
      rw [hu] at h
      cases h
      simp only [canonicalCards, List.mem_flatMap, List.mem_map]
      exact ⟨'T', by decide, u, suit_map_mem c2 u hu, rfl⟩
  · cases h

/-- Every canonical token normalizes to itself. -/
theorem canonical_idem : ∀ c ∈ canonicalCards, normalize_card_str c = Except.ok c := by
  decide

/-- Claim C7: normalization is idempotent on its range; normalizing a
canonical result returns it unchanged. -/
theorem claim_C7 (t c : String) (h : normalize_card_str t = Except.ok c) :
    normalize_card_str c = Except.ok c :=
  canonical_idem c (normalize_core_range _ t c h)

/-- Witness for claim C7: the token "AH" normalizes to "Ah", which
normalizes to itself. -/
theorem claim_C7_w : normalize_card_str "Ah" = Except.ok "Ah" :=
  claim_C7 "AH" "Ah" (by decide)

/-- Claim C2: the strength classifier checks the four rules in priority
order and returns the tier of the first matching one, exactly as the
spec-side classifier built from the claim's words (modulo the code's
German tier names, related through tierName). -/
theorem claim_C2 (he : HandEvaluation) :
    classify_strength he = tierName (spec_classify he.hand_class he.pct_rank) := by
  obtain ⟨st, hc, sc, pct, d⟩ := he
  simp only [classify_strength, spec_classify, checkAny, List.any_cons, List.any_nil,
    Bool.or_false, Bool.or_assoc]
  split_ifs <;> rfl

/-- Appending to a non-empty string keeps it non-empty. -/
theorem str_append_ne (a b : String) (h : a ≠ "") : a ++ b ≠ "" := by
  obtain ⟨la⟩ := a
  obtain ⟨lb⟩ := b
  intro hab
  apply h
  have h2 : la ++ lb = [] := congrArg String.data hab
  rw [(List.append_eq_nil.mp h2).1]

/-- Claim C9: the recommendation engine is total: on every street and
for every hand evaluation, position, stack, pot and player count it
yields a recommendation whose label, action and explanation are all
non-empty. -/
theorem claim_C9 (he : HandEvaluation) (position : String)
    ( stack_bb pot_bb : ℚ) (players : Int) :
    (recommend_action he position stack_bb pot_bb players).label ≠ ""
    ∧ (recommend_action he position stack_bb pot_bb players).action ≠ ""
    ∧ (recommend_action he position stack_bb pot_bb players).explanation ≠ "" := by
  obtain ⟨st, hc, sc, pct, d⟩ := he
  cases st <;>
    simp only [recommend_action] <;>
    split_ifs <;>
    refine ⟨?_, ?_, ?_⟩ <;>
    dsimp only <;>
    (repeat apply str_append_ne) <;>
    decide

/-- Claim C10: card parsing performs no duplicate-card validation: the
duplicated hole cards As As parse successfully, and in general parsing
succeeds if and only if every individual token is valid. -/
theorem claim_C10 :
    parse_cards ["As", "As"] = Except.ok [⟨14, 's'⟩, ⟨14, 's'⟩]
    ∧ ∀ cards : List String,
        exceptOk (parse_cards cards) = true ↔
          ∀ t ∈ cards, exceptOk (normalize_card_str t) = true := by
  refine ⟨by decide, ?_⟩
  intro cards
  induction cards with
  | nil => simp [parse_cards, exceptOk]
  | cons c cs ih =>
    cases hn : normalize_card_str c with
    | error e =>
      simp [parse_cards, hn, exceptOk]
    | ok s =>
      cases hp : parse_cards cs with
      | error e =>
        rw [hp] at ih
        simp only [exceptOk] at ih
        simp [parse_cards, hn, hp, exceptOk, ← ih]
      | ok rest =>
        rw [hp] at ih
        simp only [exceptOk] at ih
        simp [parse_cards, hn, hp, exceptOk, ← ih]

/-- Witness for claim C10: a single valid token parses successfully. -/
theorem claim_C10_w : exceptOk (parse_cards ["As"]) = true :=
  (claim_C10.2 ["As"]).mpr (by decide)
